import Mathlib

/-!
Verification of the ACH calculator server (`src/routes/routesAch.mjs`).

The server is a CRUD HTTP service over a single table `ach_data` with
columns `id, room_name, room_volume, airflow_rate, ach`.  We embed:

* JSON values as they appear in request bodies (JavaScript values, where
  a field destructured from `req.body` may be `undefined`);
* the database state as a list of rows plus the next generated id;
* the persistence adapter calls used by the routes (`db.any`,
  `db.oneOrNone`, `db.one` on INSERT/UPDATE, `db.result` on DELETE),
  each returning `Except String` so that a failure carries the
  underlying error message;
* the five route handlers, each parameterised by `inject : Option String`
  modelling a failure raised by the persistence layer (connectivity and
  the like): when `inject = some e` the database call raises `e` and the
  handler takes its `catch` branch.
-/

namespace AchServer

/-- A JavaScript value occurring as a request-body field or a stored cell.
`vUndef` is the value of a destructured field that was omitted from the
JSON body. -/
inductive Value where
  | vStr : String → Value
  | vNum : Int → Value
  | vNull : Value
  | vUndef : Value
deriving DecidableEq

/-- JavaScript truthiness restricted to the values above: `""`, `0`,
`null` and `undefined` are falsy, everything else is truthy. -/
def truthy : Value → Bool
  | .vStr s => s != ""
  | .vNum n => n != 0
  | .vNull => false
  | .vUndef => false

/-- The four body fields destructured in the POST and PUT handlers:
`const { roomName, roomVolume, airflowRate, ach } = req.body`. -/
structure Body where
  roomName : Value
  roomVolume : Value
  airflowRate : Value
  ach : Value
deriving DecidableEq

/-- The validation performed by the POST and PUT handlers:
`!roomName || !roomVolume || !airflowRate || !ach` triggers a 400;
`valid` is the complement (all four fields truthy). -/
def Body.valid (b : Body) : Bool :=
  truthy b.roomName && truthy b.roomVolume && truthy b.airflowRate && truthy b.ach

/-- A stored row of the `ach_data` table. -/
structure Row where
  id : Nat
  room_name : Value
  room_volume : Value
  airflow_rate : Value
  ach : Value
deriving DecidableEq

/-- The JSON object a row serialises to: `SELECT *` / `RETURNING *`
yield the stored column names, so the keys are the snake_case column
names plus `id`, in table order. -/
def Row.toJson (r : Row) : List (String × Value) :=
  [("id", .vNum r.id), ("room_name", r.room_name), ("room_volume", r.room_volume),
   ("airflow_rate", r.airflow_rate), ("ach", r.ach)]

/-- Database state: the rows of `ach_data` and the next value of the
generated `id` column. -/
structure Db where
  rows : List Row
  nextId : Nat
deriving DecidableEq

/-- Well-formedness maintained by the storage engine: ids are pairwise
distinct and below the generator counter. -/
def Db.Wf (db : Db) : Prop :=
  (db.rows.map Row.id).Nodup ∧ ∀ r ∈ db.rows, r.id < db.nextId

instance (db : Db) : Decidable db.Wf := by
  unfold Db.Wf; infer_instance

/-- `db.any("SELECT * FROM ach_data")`: returns all rows, never raises
by itself. -/
def dbAny (db : Db) : Except String (List Row) :=
  .ok db.rows

/-- `db.oneOrNone("SELECT * FROM ach_data WHERE id = $1", id)`:
the first matching row or `none`. -/
def dbOneOrNone (db : Db) (id : Nat) : Except String (Option Row) :=
  .ok (db.rows.find? (fun r => r.id == id))

/-- `db.one("INSERT INTO ach_data(...) VALUES(...) RETURNING *", ...)`:
inserts a fresh row with the generated id and returns it. -/
def dbInsertOne (db : Db) (roomName roomVolume airflowRate ach : Value) :
    Except String (Row × Db) :=
  let newRow : Row := ⟨db.nextId, roomName, roomVolume, airflowRate, ach⟩
  .ok (newRow, ⟨db.rows ++ [newRow], db.nextId + 1⟩)

/-- `db.one("UPDATE ach_data SET ... WHERE id = $5 RETURNING *", ...)`:
`db.one` raises a `QueryResultError` unless the statement returns exactly
one row, so an update matching zero rows (or several) is an error. -/
def dbUpdateOne (db : Db) (id : Nat) (roomName roomVolume airflowRate ach : Value) :
    Except String (Row × Db) :=
  match db.rows.filter (fun r => r.id == id) with
  | [] => .error "No data returned from the query."
  | [r] =>
    .ok (⟨r.id, roomName, roomVolume, airflowRate, ach⟩,
      ⟨db.rows.map (fun s =>
          if s.id == id then ⟨s.id, roomName, roomVolume, airflowRate, ach⟩ else s),
       db.nextId⟩)
  | _ => .error "Multiple rows were not expected."

/-- `db.result("DELETE FROM ach_data WHERE id = $1", id)`: removes the
matching rows and reports `rowCount`, the number of rows removed. -/
def dbDeleteResult (db : Db) (id : Nat) : Except String (Nat × Db) :=
  .ok ((db.rows.filter (fun r => r.id == id)).length,
       ⟨db.rows.filter (fun r => !(r.id == id)), db.nextId⟩)

/-- Failure injection: `some e` models the persistence layer raising the
error `e` (connectivity failure, constraint violation, ...) in place of
the call's own outcome. -/
def withInject (inject : Option String) (r : Except String α) : Except String α :=
  match inject with
  | some e => .error e
  | none => r

/-- The body of an HTTP response sent by a handler. -/
inductive ResBody where
  | empty : ResBody
  | message : String → ResBody
  | record : List (String × Value) → ResBody
  | records : List (List (String × Value)) → ResBody
deriving DecidableEq

/-- An HTTP response: status code and JSON (or empty) body. -/
structure Response where
  status : Nat
  body : ResBody
deriving DecidableEq

/-- `router.get("/")`: list all records; 500 with a static message on
adapter failure. -/
def routeGetAll (inject : Option String) (db : Db) : Response :=
  match withInject inject (dbAny db) with
  | .ok data => ⟨200, .records (data.map Row.toJson)⟩
  | .error _ => ⟨500, .message "Error fetching data"⟩

/-- `router.get("/:id")`: the matching record, 404 if none, 500 with a
static message on adapter failure. -/
def routeGetById (inject : Option String) (db : Db) (id : Nat) : Response :=
  match withInject inject (dbOneOrNone db id) with
  | .ok (some data) => ⟨200, .record data.toJson⟩
  | .ok none => ⟨404, .message "Record not found"⟩
  | .error _ => ⟨500, .message "Error fetching data"⟩

/-- `router.post("/")`: validate the four fields, then insert; returns
the response together with the database state after the request. -/
def routePost (inject : Option String) (db : Db) (b : Body) : Response × Db :=
  if !truthy b.roomName || !truthy b.roomVolume || !truthy b.airflowRate || !truthy b.ach then
    (⟨400, .message "All fields are required"⟩, db)
  else
    match withInject inject (dbInsertOne db b.roomName b.roomVolume b.airflowRate b.ach) with
    | .ok (newEntry, db2) => (⟨201, .record newEntry.toJson⟩, db2)
    | .error _ => (⟨500, .message "Error submitting data"⟩, db)

/-- `router.put("/:id")`: validate the four fields, then update via
`db.one`; returns the response together with the database state after
the request. -/
def routePut (inject : Option String) (db : Db) (id : Nat) (b : Body) : Response × Db :=
  if !truthy b.roomName || !truthy b.roomVolume || !truthy b.airflowRate || !truthy b.ach then
    (⟨400, .message "All fields are required"⟩, db)
  else
    match withInject inject (dbUpdateOne db id b.roomName b.roomVolume b.airflowRate b.ach) with
    | .ok (updatedEntry, db2) => (⟨200, .record updatedEntry.toJson⟩, db2)
    | .error _ => (⟨500, .message "Error updating data"⟩, db)

/-- `router.delete("/:id")`: 204 with empty body when `rowCount > 0`,
404 otherwise, 500 with a static message on adapter failure. -/
def routeDelete (inject : Option String) (db : Db) (id : Nat) : Response × Db :=
  match withInject inject (dbDeleteResult db id) with
  | .ok (result, db2) =>
    if result > 0 then (⟨204, .empty⟩, db2)
    else (⟨404, .message "Record not found"⟩, db2)
  | .error _ => (⟨500, .message "Error deleting data"⟩, db)

/-- The JSON objects contained in a response body: the single record of
a `record` response, the listed records of a `records` response, none
for a message or empty body. -/
def Response.jsonRecords : Response → List (List (String × Value))
  | ⟨_, .record j⟩ => [j]
  | ⟨_, .records js⟩ => js
  | _ => []

/-- A body field is "bad" in the sense of the validation claim: omitted
(`undefined` after destructuring), `null`, the empty string, or the
number `0`. -/
def badField (v : Value) : Prop :=
  v = .vUndef ∨ v = .vNull ∨ v = .vStr "" ∨ v = .vNum 0

theorem truthy_eq_false_of_badField {v : Value} (h : badField v) : truthy v = false := by
  rcases h with h | h | h | h <;> subst h <;> rfl

theorem validationFails_of_badField {b : Body}
    (h : badField b.roomName ∨ badField b.roomVolume ∨
         badField b.airflowRate ∨ badField b.ach) :
    (!truthy b.roomName || !truthy b.roomVolume ||
     !truthy b.airflowRate || !truthy b.ach) = true := by
  rcases h with h | h | h | h <;>
    simp [truthy_eq_false_of_badField h]

theorem validationPasses_of_valid {b : Body} (hv : b.valid = true) :
    (!truthy b.roomName || !truthy b.roomVolume ||
     !truthy b.airflowRate || !truthy b.ach) = false := by
  simp only [Body.valid, Bool.and_eq_true] at hv
  simp [hv.1.1.1, hv.1.1.2, hv.1.2, hv.2]

theorem filter_id_eq_nil {l : List Row} {id : Nat}
    (h : ∀ r ∈ l, r.id ≠ id) :
    l.filter (fun r => r.id == id) = [] := by
  induction l with
  | nil => rfl
  | cons hd tl ih =>
    have hhd : (hd.id == id) = false := by
      simpa using h hd (List.mem_cons_self hd tl)
    simp only [List.filter_cons, hhd, Bool.false_eq_true, if_false]
    exact ih (fun r hr => h r (List.mem_cons_of_mem hd hr))

theorem find?_id_of_nodup {l : List Row} {r : Row} {id : Nat}
    (hnd : (l.map Row.id).Nodup) (hmem : r ∈ l) (hid : r.id = id) :
    l.find? (fun s => s.id == id) = some r := by
  induction l with
  | nil => cases hmem
  | cons hd tl ih =>
    rw [List.map_cons, List.nodup_cons] at hnd
    rcases List.mem_cons.mp hmem with heq | htl
    · subst heq
      exact List.find?_cons_of_pos _ (by simp [hid])
    · have hhd : ¬((fun s => s.id == id) hd = true) := by
        simp only [beq_iff_eq]
        intro hcontra
        exact hnd.1 (by rw [hcontra, ← hid]; exact List.mem_map_of_mem Row.id htl)
      rw [List.find?_cons_of_neg (p := fun s => s.id == id) tl hhd]
      exact ih hnd.2 htl

theorem filter_id_single {l : List Row} {r : Row} {id : Nat}
    (hnd : (l.map Row.id).Nodup) (hmem : r ∈ l) (hid : r.id = id) :
    l.filter (fun s => s.id == id) = [r] := by
  induction l with
  | nil => cases hmem
  | cons hd tl ih =>
    rw [List.map_cons, List.nodup_cons] at hnd
    rcases List.mem_cons.mp hmem with heq | htl
    · subst heq
      have htl0 : ∀ s ∈ tl, s.id ≠ id := by
        intro s hs hcontra
        exact hnd.1 (by rw [hid, ← hcontra]; exact List.mem_map_of_mem Row.id hs)
      simp [List.filter_cons, hid, filter_id_eq_nil htl0]
    · have hhd : (hd.id == id) = false := by
        simp only [beq_eq_false_iff_ne, ne_eq]
        intro hcontra
        exact hnd.1 (by rw [hcontra, ← hid]; exact List.mem_map_of_mem Row.id htl)
      simp only [List.filter_cons, hhd, Bool.false_eq_true, if_false]
      exact ih hnd.2 htl

theorem toJson_id_inj {r s : Row} (h : r.toJson = s.toJson) : r.id = s.id := by
  simp only [Row.toJson, List.cons.injEq, Prod.mk.injEq, Value.vNum.injEq] at h
  exact_mod_cast h.1.2

theorem nodup_map_toJson {l : List Row} (h : (l.map Row.id).Nodup) :
    (l.map Row.toJson).Nodup := by
  induction l with
  | nil => simp
  | cons hd tl ih =>
    simp only [List.map_cons, List.nodup_cons] at h ⊢
    refine ⟨?_, ih h.2⟩
    intro hmem
    rcases List.mem_map.mp hmem with ⟨s, hs, hjson⟩
    exact h.1 (toJson_id_inj hjson ▸ List.mem_map_of_mem Row.id hs)

theorem find?_append_of_forall {p : Row → Bool} {l1 l2 : List Row}
    (h : ∀ x ∈ l1, p x = false) : (l1 ++ l2).find? p = l2.find? p := by
  induction l1 with
  | nil => rfl
  | cons hd tl ih =>
    rw [List.cons_append, List.find?_cons_of_neg]
    · exact ih fun x hx => h x (List.mem_cons_of_mem hd hx)
    · simp [h hd (List.mem_cons_self hd tl)]

theorem jsonRecords_of_routes (db : Db) (id : Nat) (b : Body)
    (j : List (String × Value))
    (h : j ∈ (routeGetAll none db).jsonRecords ∨
         j ∈ (routeGetById none db id).jsonRecords ∨
         j ∈ ((routePost none db b).1).jsonRecords ∨
         j ∈ ((routePut none db id b).1).jsonRecords) :
    ∃ r : Row, j = r.toJson := by
  rcases h with h | h | h | h
  · simp only [routeGetAll, withInject, dbAny, Response.jsonRecords] at h
    rcases List.mem_map.mp h with ⟨r, _, hr⟩
    exact ⟨r, hr.symm⟩
  · rcases hfind : db.rows.find? (fun s => s.id == id) with _ | r
    · simp [routeGetById, withInject, dbOneOrNone, hfind, Response.jsonRecords] at h
    · simp only [routeGetById, withInject, dbOneOrNone, hfind, Response.jsonRecords,
        List.mem_singleton] at h
      exact ⟨r, h⟩
  · cases hc : (!truthy b.roomName || !truthy b.roomVolume ||
        !truthy b.airflowRate || !truthy b.ach)
    · simp only [routePost, hc, Bool.false_eq_true, if_false, withInject, dbInsertOne,
        Response.jsonRecords, List.mem_singleton] at h
      exact ⟨_, h⟩
    · simp [routePost, hc, Response.jsonRecords] at h
  · cases hc : (!truthy b.roomName || !truthy b.roomVolume ||
        !truthy b.airflowRate || !truthy b.ach)
    · rcases hfil : db.rows.filter (fun s => s.id == id) with _ | ⟨r, tl⟩
      · simp [routePut, hc, withInject, dbUpdateOne, hfil, Response.jsonRecords] at h
      · cases tl
        · simp only [routePut, hc, Bool.false_eq_true, if_false, withInject,
            dbUpdateOne, hfil, Response.jsonRecords, List.mem_singleton] at h
          exact ⟨_, h⟩
        · simp [routePut, hc, withInject, dbUpdateOne, hfil, Response.jsonRecords] at h
    · simp [routePut, hc, Response.jsonRecords] at h

end AchServer

open AchServer

/-- C2: a Create or Update request in which any of the four fields is
omitted, `null`, the empty string, or the number `0` is rejected with a
400 response carrying the static message, regardless of the database
state or of any persistence-layer behaviour, and no success is returned. -/
theorem c2_badField_rejected (inject : Option String) (db : Db) (id : Nat) (b : Body)
    (h : badField b.roomName ∨ badField b.roomVolume ∨
         badField b.airflowRate ∨ badField b.ach) :
    routePost inject db b = (⟨400, .message "All fields are required"⟩, db) ∧
    routePut inject db id b = (⟨400, .message "All fields are required"⟩, db) := by
  constructor
  · simp [routePost, validationFails_of_badField h]
  · simp [routePut, validationFails_of_badField h]

/-- Witness for C2: a concrete body with `ach = 0` is rejected by both
Create and Update. -/
theorem c2_badField_rejected_witness :
    routePost none ⟨[], 0⟩ ⟨.vStr "Lab A", .vNum 100, .vNum 2000, .vNum 0⟩
      = (⟨400, .message "All fields are required"⟩, ⟨[], 0⟩) ∧
    routePut none ⟨[], 0⟩ 1 ⟨.vStr "Lab A", .vNum 100, .vNum 2000, .vNum 0⟩
      = (⟨400, .message "All fields are required"⟩, ⟨[], 0⟩) :=
  c2_badField_rejected none ⟨[], 0⟩ 1 ⟨.vStr "Lab A", .vNum 100, .vNum 2000, .vNum 0⟩
    (Or.inr (Or.inr (Or.inr (Or.inr (Or.inr (Or.inr rfl))))))

/-- C9: when Create or Update rejects a body with the 400 validation
response, the database state is unchanged and the outcome is independent
of the persistence layer entirely (the same response results whatever
failure the adapter would raise), i.e. validation runs strictly before
any database call. -/
theorem c9_validation_before_db (inject : Option String) (db : Db) (id : Nat) (b : Body)
    (hv : b.valid = false) :
    routePost inject db b = (⟨400, .message "All fields are required"⟩, db) ∧
    routePut inject db id b = (⟨400, .message "All fields are required"⟩, db) ∧
    routePost inject db b = routePost none db b ∧
    routePut inject db id b = routePut none db id b := by
  have hcond : (!truthy b.roomName || !truthy b.roomVolume ||
      !truthy b.airflowRate || !truthy b.ach) = true := by
    cases ha : truthy b.roomName <;> cases hb : truthy b.roomVolume <;>
      cases hc : truthy b.airflowRate <;> cases hd : truthy b.ach <;>
      simp_all [Body.valid]
  refine ⟨?_, ?_, ?_, ?_⟩ <;> simp [routePost, routePut, hcond]

/-- Witness for C9: a concrete invalid body (empty room name) leaves a
one-row database untouched even when the adapter would raise. -/
theorem c9_validation_before_db_witness :
    routePost (some "boom") ⟨[⟨1, .vStr "A", .vNum 1, .vNum 2, .vNum 3⟩], 2⟩
        ⟨.vStr "", .vNum 100, .vNum 2000, .vNum 20⟩
      = (⟨400, .message "All fields are required"⟩,
         ⟨[⟨1, .vStr "A", .vNum 1, .vNum 2, .vNum 3⟩], 2⟩) :=
  (c9_validation_before_db (some "boom")
    ⟨[⟨1, .vStr "A", .vNum 1, .vNum 2, .vNum 3⟩], 2⟩ 1
    ⟨.vStr "", .vNum 100, .vNum 2000, .vNum 20⟩ rfl).1

/-- C3: an Update with a valid body whose id matches no stored row is
answered with the generic 500 server-error response (the single-row
`db.one` call fails on zero rows), not with a 404, and the database is
unchanged. -/
theorem c3_update_missing_row_is_500 (db : Db) (id : Nat) (b : Body)
    (hv : b.valid = true) (hnone : ∀ r ∈ db.rows, r.id ≠ id) :
    routePut none db id b = (⟨500, .message "Error updating data"⟩, db) := by
  simp [routePut, validationPasses_of_valid hv, withInject, dbUpdateOne,
    filter_id_eq_nil hnone]

/-- Witness for C3: updating id 2 in a database holding only id 1
returns the 500 response. -/
theorem c3_update_missing_row_is_500_witness :
    routePut none ⟨[⟨1, .vStr "A", .vNum 1, .vNum 2, .vNum 3⟩], 2⟩ 2
        ⟨.vStr "Lab A", .vNum 100, .vNum 2000, .vNum 20⟩
      = (⟨500, .message "Error updating data"⟩,
         ⟨[⟨1, .vStr "A", .vNum 1, .vNum 2, .vNum 3⟩], 2⟩) :=
  c3_update_missing_row_is_500 ⟨[⟨1, .vStr "A", .vNum 1, .vNum 2, .vNum 3⟩], 2⟩ 2
    ⟨.vStr "Lab A", .vNum 100, .vNum 2000, .vNum 20⟩ rfl (by decide)

/-- C6: whatever failure the persistence layer raises, and whatever the
database state, every operation answers with the same static 500
response for that operation; the error content never reaches the
caller. -/
theorem c6_uniform_error_responses (e1 e2 : String) (db1 db2 : Db) (id1 id2 : Nat)
    (b1 b2 : Body) (hv1 : b1.valid = true) (hv2 : b2.valid = true) :
    (routeGetAll (some e1) db1 = routeGetAll (some e2) db2 ∧
     routeGetAll (some e1) db1 = ⟨500, .message "Error fetching data"⟩) ∧
    (routeGetById (some e1) db1 id1 = routeGetById (some e2) db2 id2 ∧
     routeGetById (some e1) db1 id1 = ⟨500, .message "Error fetching data"⟩) ∧
    ((routePost (some e1) db1 b1).1 = (routePost (some e2) db2 b2).1 ∧
     (routePost (some e1) db1 b1).1 = ⟨500, .message "Error submitting data"⟩) ∧
    ((routePut (some e1) db1 id1 b1).1 = (routePut (some e2) db2 id2 b2).1 ∧
     (routePut (some e1) db1 id1 b1).1 = ⟨500, .message "Error updating data"⟩) ∧
    ((routeDelete (some e1) db1 id1).1 = (routeDelete (some e2) db2 id2).1 ∧
     (routeDelete (some e1) db1 id1).1 = ⟨500, .message "Error deleting data"⟩) := by
  refine ⟨⟨?_, ?_⟩, ⟨?_, ?_⟩, ⟨?_, ?_⟩, ⟨?_, ?_⟩, ⟨?_, ?_⟩⟩ <;>
    simp [routeGetAll, routeGetById, routePost, routePut, routeDelete, withInject,
      validationPasses_of_valid hv1, validationPasses_of_valid hv2]

/-- Witness for C6: two distinct concrete failures against two distinct
concrete database states produce identical responses. -/
theorem c6_uniform_error_responses_witness :
    (routeGetAll (some "connection refused") ⟨[], 0⟩
       = routeGetAll (some "syntax error at or near") ⟨[⟨1, .vStr "A", .vNum 1, .vNum 2, .vNum 3⟩], 2⟩) ∧
    ((routePost (some "connection refused") ⟨[], 0⟩
        ⟨.vStr "A", .vNum 1, .vNum 2, .vNum 3⟩).1
       = ⟨500, .message "Error submitting data"⟩) :=
  ⟨(c6_uniform_error_responses "connection refused" "syntax error at or near"
      ⟨[], 0⟩ ⟨[⟨1, .vStr "A", .vNum 1, .vNum 2, .vNum 3⟩], 2⟩ 1 2
      ⟨.vStr "A", .vNum 1, .vNum 2, .vNum 3⟩ ⟨.vStr "B", .vNum 4, .vNum 5, .vNum 6⟩
      rfl rfl).1.1,
   (c6_uniform_error_responses "connection refused" "syntax error at or near"
      ⟨[], 0⟩ ⟨[⟨1, .vStr "A", .vNum 1, .vNum 2, .vNum 3⟩], 2⟩ 1 2
      ⟨.vStr "A", .vNum 1, .vNum 2, .vNum 3⟩ ⟨.vStr "B", .vNum 4, .vNum 5, .vNum 6⟩
      rfl rfl).2.2.1.2⟩

/-- C4: Delete answers 204 with an empty body (removing the matching
rows) when at least one row matches the id, and 404 with the static
message (leaving the database unchanged) when no row matches. -/
theorem c4_delete_spec (db : Db) (id : Nat) :
    ((∃ r ∈ db.rows, r.id = id) →
      routeDelete none db id
        = (⟨204, .empty⟩, ⟨db.rows.filter (fun r => !(r.id == id)), db.nextId⟩)) ∧
    ((∀ r ∈ db.rows, r.id ≠ id) →
      routeDelete none db id = (⟨404, .message "Record not found"⟩, db)) := by
  constructor
  · rintro ⟨r, hr, hid⟩
    have hmem : r ∈ db.rows.filter (fun s => s.id == id) :=
      List.mem_filter.mpr ⟨hr, by simp [hid]⟩
    have hlen : 0 < (db.rows.filter (fun s => s.id == id)).length :=
      List.length_pos.mpr (List.ne_nil_of_mem hmem)
    simp [routeDelete, withInject, dbDeleteResult, hlen]
  · intro h
    have h0 : db.rows.filter (fun s => s.id == id) = [] := filter_id_eq_nil h
    have hself : db.rows.filter (fun s => !(s.id == id)) = db.rows :=
      List.filter_eq_self.mpr (fun r hr => by simp [h r hr])
    simp [routeDelete, withInject, dbDeleteResult, h0, hself]

/-- Witness for C4: deleting id 1 from a one-row database returns 204
and empties it; deleting id 2 returns 404 and leaves it unchanged. -/
theorem c4_delete_spec_witness :
    routeDelete none ⟨[⟨1, .vStr "A", .vNum 1, .vNum 2, .vNum 3⟩], 2⟩ 1
      = (⟨204, .empty⟩, ⟨[], 2⟩) ∧
    routeDelete none ⟨[⟨1, .vStr "A", .vNum 1, .vNum 2, .vNum 3⟩], 2⟩ 2
      = (⟨404, .message "Record not found"⟩, ⟨[⟨1, .vStr "A", .vNum 1, .vNum 2, .vNum 3⟩], 2⟩) :=
  ⟨(c4_delete_spec ⟨[⟨1, .vStr "A", .vNum 1, .vNum 2, .vNum 3⟩], 2⟩ 1).1
     ⟨⟨1, .vStr "A", .vNum 1, .vNum 2, .vNum 3⟩, by decide, rfl⟩,
   (c4_delete_spec ⟨[⟨1, .vStr "A", .vNum 1, .vNum 2, .vNum 3⟩], 2⟩ 2).2 (by decide)⟩

/-- C5: Get-by-id answers 200 with the matching record when a stored row
has the requested id, and 404 with the static message when none does. -/
theorem c5_get_by_id_spec (db : Db) (id : Nat) (hwf : db.Wf) :
    (∀ r ∈ db.rows, r.id = id →
      routeGetById none db id = ⟨200, .record r.toJson⟩) ∧
    ((∀ r ∈ db.rows, r.id ≠ id) →
      routeGetById none db id = ⟨404, .message "Record not found"⟩) := by
  constructor
  · intro r hr hid
    simp [routeGetById, withInject, dbOneOrNone, find?_id_of_nodup hwf.1 hr hid]
  · intro h
    have h0 : db.rows.find? (fun s => s.id == id) = none :=
      List.find?_eq_none.mpr (fun x hx => by simp [h x hx])
    simp [routeGetById, withInject, dbOneOrNone, h0]

/-- Witness for C5: looking up id 1 in a one-row database returns the
record with its column-named fields; looking up id 2 returns 404. -/
theorem c5_get_by_id_spec_witness :
    routeGetById none ⟨[⟨1, .vStr "A", .vNum 1, .vNum 2, .vNum 3⟩], 2⟩ 1
      = ⟨200, .record [("id", .vNum 1), ("room_name", .vStr "A"), ("room_volume", .vNum 1),
                       ("airflow_rate", .vNum 2), ("ach", .vNum 3)]⟩ ∧
    routeGetById none ⟨[⟨1, .vStr "A", .vNum 1, .vNum 2, .vNum 3⟩], 2⟩ 2
      = ⟨404, .message "Record not found"⟩ :=
  ⟨(c5_get_by_id_spec ⟨[⟨1, .vStr "A", .vNum 1, .vNum 2, .vNum 3⟩], 2⟩ 1
      ⟨by decide, by decide⟩).1 ⟨1, .vStr "A", .vNum 1, .vNum 2, .vNum 3⟩ (by decide) rfl,
   (c5_get_by_id_spec ⟨[⟨1, .vStr "A", .vNum 1, .vNum 2, .vNum 3⟩], 2⟩ 2
      ⟨by decide, by decide⟩).2 (by decide)⟩

/-- C1: creating a record from a valid body returns 201 with the input
fields plus the newly assigned id, and a subsequent Get-by-id with that
id returns the same record with status 200. -/
theorem c1_create_then_get (db : Db) (b : Body) (hwf : db.Wf) (hv : b.valid = true) :
    (routePost none db b).1
      = ⟨201, .record [("id", .vNum db.nextId), ("room_name", b.roomName),
                       ("room_volume", b.roomVolume), ("airflow_rate", b.airflowRate),
                       ("ach", b.ach)]⟩ ∧
    routeGetById none (routePost none db b).2 db.nextId
      = ⟨200, .record [("id", .vNum db.nextId), ("room_name", b.roomName),
                       ("room_volume", b.roomVolume), ("airflow_rate", b.airflowRate),
                       ("ach", b.ach)]⟩ := by
  have hcond := validationPasses_of_valid hv
  have hfind : ((db.rows ++
        [(⟨db.nextId, b.roomName, b.roomVolume, b.airflowRate, b.ach⟩ : Row)]).find?
      (fun s => s.id == db.nextId))
      = some ⟨db.nextId, b.roomName, b.roomVolume, b.airflowRate, b.ach⟩ := by
    rw [find?_append_of_forall
      (fun x hx => by simp [Nat.ne_of_lt (hwf.2 x hx)])]
    simp
  constructor
  · simp [routePost, hcond, withInject, dbInsertOne, Row.toJson]
  · simp [routePost, hcond, withInject, dbInsertOne, routeGetById, dbOneOrNone,
      hfind, Row.toJson]

/-- Witness for C1: creating in the empty database and reading id 0
back yields the input fields plus the id. -/
theorem c1_create_then_get_witness :
    (routePost none ⟨[], 0⟩ ⟨.vStr "Lab A", .vNum 100, .vNum 2000, .vNum 20⟩).1
      = ⟨201, .record [("id", .vNum 0), ("room_name", .vStr "Lab A"),
                       ("room_volume", .vNum 100), ("airflow_rate", .vNum 2000),
                       ("ach", .vNum 20)]⟩ ∧
    routeGetById none
        (routePost none ⟨[], 0⟩ ⟨.vStr "Lab A", .vNum 100, .vNum 2000, .vNum 20⟩).2 0
      = ⟨200, .record [("id", .vNum 0), ("room_name", .vStr "Lab A"),
                       ("room_volume", .vNum 100), ("airflow_rate", .vNum 2000),
                       ("ach", .vNum 20)]⟩ :=
  c1_create_then_get ⟨[], 0⟩ ⟨.vStr "Lab A", .vNum 100, .vNum 2000, .vNum 20⟩
    ⟨by decide, by decide⟩ rfl

/-- C7: List answers 200 with exactly the stored rows serialised in
order; each stored record occurs exactly once and carries all four
business fields (under their column names) plus the id. -/
theorem c7_list_returns_all (db : Db) (hwf : db.Wf) :
    routeGetAll none db = ⟨200, .records (db.rows.map Row.toJson)⟩ ∧
    (db.rows.map Row.toJson).Nodup ∧
    (∀ r ∈ db.rows, r.toJson ∈ db.rows.map Row.toJson) ∧
    (∀ r ∈ db.rows, r.toJson.map Prod.fst
       = ["id", "room_name", "room_volume", "airflow_rate", "ach"]) := by
  refine ⟨?_, ?_, ?_, ?_⟩
  · simp [routeGetAll, withInject, dbAny]
  · exact nodup_map_toJson hwf.1
  · intro r hr
    exact List.mem_map_of_mem Row.toJson hr
  · intro r _
    simp [Row.toJson]

/-- Witness for C7: a two-row database lists both records once each. -/
theorem c7_list_returns_all_witness :
    routeGetAll none ⟨[⟨1, .vStr "A", .vNum 1, .vNum 2, .vNum 3⟩,
                      ⟨2, .vStr "B", .vNum 4, .vNum 5, .vNum 6⟩], 3⟩
      = ⟨200, .records
          [[("id", .vNum 1), ("room_name", .vStr "A"), ("room_volume", .vNum 1),
            ("airflow_rate", .vNum 2), ("ach", .vNum 3)],
           [("id", .vNum 2), ("room_name", .vStr "B"), ("room_volume", .vNum 4),
            ("airflow_rate", .vNum 5), ("ach", .vNum 6)]]⟩ :=
  (c7_list_returns_all ⟨[⟨1, .vStr "A", .vNum 1, .vNum 2, .vNum 3⟩,
                         ⟨2, .vStr "B", .vNum 4, .vNum 5, .vNum 6⟩], 3⟩
     ⟨by decide, by decide⟩).1

/-- C8: a successful Update of an existing row overwrites exactly the
four business fields of the matching row, keeps its id and the id
generator unchanged, and leaves every other row untouched. -/
theorem c8_update_frame (db : Db) (id : Nat) (b : Body) (r : Row)
    (hwf : db.Wf) (hmem : r ∈ db.rows) (hid : r.id = id) (hv : b.valid = true) :
    routePut none db id b
      = (⟨200, .record [("id", .vNum id), ("room_name", b.roomName),
                        ("room_volume", b.roomVolume), ("airflow_rate", b.airflowRate),
                        ("ach", b.ach)]⟩,
         ⟨db.rows.map (fun s =>
             if s.id == id then ⟨s.id, b.roomName, b.roomVolume, b.airflowRate, b.ach⟩
             else s),
          db.nextId⟩) ∧
    ∀ s ∈ db.rows, s.id ≠ id → s ∈ (routePut none db id b).2.rows := by
  have hcond := validationPasses_of_valid hv
  have hfilter := filter_id_single hwf.1 hmem hid
  have hupd : dbUpdateOne db id b.roomName b.roomVolume b.airflowRate b.ach
      = .ok (⟨r.id, b.roomName, b.roomVolume, b.airflowRate, b.ach⟩,
             ⟨db.rows.map (fun s =>
                 if s.id == id then ⟨s.id, b.roomName, b.roomVolume, b.airflowRate, b.ach⟩
                 else s),
              db.nextId⟩) := by
    unfold dbUpdateOne
    rw [hfilter]
  constructor
  · simp [routePut, hcond, withInject, hupd, Row.toJson, hid]
  · intro s hs hne
    simp only [routePut, hcond, Bool.false_eq_true, if_false, withInject, hupd]
    exact List.mem_map.mpr ⟨s, hs, by simp [hne]⟩

/-- Witness for C8: updating row 1 in a two-row database rewrites its
four fields, keeps both ids, and leaves row 2 unchanged. -/
theorem c8_update_frame_witness :
    routePut none ⟨[⟨1, .vStr "A", .vNum 1, .vNum 2, .vNum 3⟩,
                   ⟨2, .vStr "B", .vNum 4, .vNum 5, .vNum 6⟩], 3⟩ 1
        ⟨.vStr "Lab A", .vNum 100, .vNum 2000, .vNum 20⟩
      = (⟨200, .record [("id", .vNum 1), ("room_name", .vStr "Lab A"),
                        ("room_volume", .vNum 100), ("airflow_rate", .vNum 2000),
                        ("ach", .vNum 20)]⟩,
         ⟨[⟨1, .vStr "Lab A", .vNum 100, .vNum 2000, .vNum 20⟩,
           ⟨2, .vStr "B", .vNum 4, .vNum 5, .vNum 6⟩], 3⟩) :=
  ((c8_update_frame ⟨[⟨1, .vStr "A", .vNum 1, .vNum 2, .vNum 3⟩,
                      ⟨2, .vStr "B", .vNum 4, .vNum 5, .vNum 6⟩], 3⟩ 1
      ⟨.vStr "Lab A", .vNum 100, .vNum 2000, .vNum 20⟩
      ⟨1, .vStr "A", .vNum 1, .vNum 2, .vNum 3⟩
      ⟨by decide, by decide⟩ (by decide) rfl rfl).1).trans (by decide)

/-- C10: every record in a success response of List, Get-by-id, Create,
or Update carries exactly the stored column names `id, room_name,
room_volume, airflow_rate, ach` as its keys — never the camelCase
request field names. -/
theorem c10_column_named_keys (db : Db) (id : Nat) (b : Body)
    (j : List (String × Value))
    (h : j ∈ (routeGetAll none db).jsonRecords ∨
         j ∈ (routeGetById none db id).jsonRecords ∨
         j ∈ ((routePost none db b).1).jsonRecords ∨
         j ∈ ((routePut none db id b).1).jsonRecords) :
    j.map Prod.fst = ["id", "room_name", "room_volume", "airflow_rate", "ach"] ∧
    "roomName" ∉ j.map Prod.fst ∧
    "roomVolume" ∉ j.map Prod.fst ∧
    "airflowRate" ∉ j.map Prod.fst := by
  obtain ⟨r, rfl⟩ := jsonRecords_of_routes db id b j h
  refine ⟨?_, ?_, ?_, ?_⟩ <;> simp [Row.toJson]

/-- Witness for C10: the record listed for a one-row database carries
the snake_case column keys and none of the camelCase names. -/
theorem c10_column_named_keys_witness :
    ([("id", Value.vNum 1), ("room_name", Value.vStr "A"), ("room_volume", Value.vNum 1),
      ("airflow_rate", Value.vNum 2), ("ach", Value.vNum 3)] : List (String × Value)).map
        Prod.fst
      = ["id", "room_name", "room_volume", "airflow_rate", "ach"] ∧
    "roomName" ∉ ([("id", Value.vNum 1), ("room_name", Value.vStr "A"),
      ("room_volume", Value.vNum 1), ("airflow_rate", Value.vNum 2),
      ("ach", Value.vNum 3)] : List (String × Value)).map Prod.fst ∧
    "roomVolume" ∉ ([("id", Value.vNum 1), ("room_name", Value.vStr "A"),
      ("room_volume", Value.vNum 1), ("airflow_rate", Value.vNum 2),
      ("ach", Value.vNum 3)] : List (String × Value)).map Prod.fst ∧
    "airflowRate" ∉ ([("id", Value.vNum 1), ("room_name", Value.vStr "A"),
      ("room_volume", Value.vNum 1), ("airflow_rate", Value.vNum 2),
      ("ach", Value.vNum 3)] : List (String × Value)).map Prod.fst :=
  c10_column_named_keys ⟨[⟨1, .vStr "A", .vNum 1, .vNum 2, .vNum 3⟩], 2⟩ 1
    ⟨.vStr "A", .vNum 1, .vNum 2, .vNum 3⟩ _ (Or.inl (by decide))
